import Mathlib

/-!
Shallow embedding of `src/script.py` (class `VideoFaceLandmarksTracker`):
a pipeline that walks the frames of a video, extracts facial landmarks
per frame, accumulates one record per frame in a dictionary keyed by a
zero-padded frame key, computes run metadata and statistics, and
serializes the result to JSON.

Python floats are modelled as exact rationals (`ℚ`); Python's `/`
raises `ZeroDivisionError` when the divisor is zero (also for float
division), which is modelled by `Option`/`Except` error values.  The
external collaborators (MediaPipe detector, OpenCV decoding, the
filesystem) are modelled as inputs: a `Frame` carries the detector
output for that frame, and a `VideoEnv` carries what `cv2.VideoCapture`
reports.
-/

namespace LandmarksFace

/-- Python division `a / b` on numbers: raises `ZeroDivisionError` when
`b == 0` (for floats as well as ints), otherwise yields the exact
quotient.  `none` models the raised exception. -/
def pydiv (a b : ℚ) : Option ℚ :=
  if b = 0 then none else some (a / b)

/-- Decimal representation of a nonnegative integer as a list of digit
characters, most significant first; the digits part of Python's `"%d"`
formatting (`repr10 0 = ['0']`, `repr10 42 = ['4','2']`). -/
def repr10 (n : Nat) : List Char :=
  if _h : n < 10 then [Nat.digitChar n]
  else repr10 (n / 10) ++ [Nat.digitChar (n % 10)]
decreasing_by exact Nat.div_lt_self (by omega) (by omega)

/-- Left zero-padding to width `w`: the fill step of Python's `{:0Nd}`
format spec (no truncation when the digits already exceed the width). -/
def padZero (w : Nat) (l : List Char) : List Char :=
  List.replicate (w - l.length) '0' ++ l

/-- Character content of the f-string `f"frame_{n:06d}"` for a
nonnegative counter `n` (source line 146). -/
def frameChars (n : Nat) : List Char :=
  "frame_".data ++ padZero 6 (repr10 n)

/-- The frame key `f"frame_{n:06d}"` used at source lines 146 and 234. -/
def frame_key (n : Nat) : String :=
  String.mk (frameChars n)

/-- Character content of `f"frame_{n:06d}"` for an arbitrary integer:
Python zero-pads a negative number after its sign, so
`f"{-5:06d}" == "-00005"`. -/
def frameCharsInt (n : Int) : List Char :=
  if n < 0 then "frame_".data ++ ('-' :: padZero 5 (repr10 n.natAbs))
  else frameChars n.toNat

/-- The frame key for an arbitrary integer frame number, as built by
`get_frame_landmarks` (source line 234). -/
def frame_key_int (n : Int) : String :=
  String.mk (frameCharsInt n)

/-- One value of `self.landmarks_data`: the per-frame dictionary built
at source lines 148-161. -/
structure FrameRec where
  frame_number : Nat
  timestamp : ℚ
  landmarks : List (ℚ × ℚ)
  num_landmarks : Nat
deriving DecidableEq

/-- The `metadata` dictionary assembled at source lines 173-179. -/
structure Metadata where
  video_path : String
  total_frames : Nat
  fps : ℚ
  duration_seconds : ℚ
  frames_with_face : Nat
deriving DecidableEq

/-- The `result` dictionary returned by `process_video` (source lines
181-184): metadata plus the insertion-ordered frame dictionary,
modelled as an association list. -/
structure TrackingResult where
  metadata : Metadata
  frames : List (String × FrameRec)
deriving DecidableEq

/-- One decoded video frame together with what the external MediaPipe
detector returns on it: `faces` is `detection_result.face_landmarks`, a
list of faces, each an ordered list of normalized `(x, y)` landmark
coordinates. -/
structure Frame where
  width : Nat
  height : Nat
  faces : List (List (ℚ × ℚ))
deriving DecidableEq

/-- Embeds `_extract_landmarks_from_frame` (source lines 67-101): an empty
detection yields `[]`; otherwise the first face's normalized landmarks
are scaled by the frame's width and height, in order, unclamped. -/
def extract_landmarks_from_frame (f : Frame) : List (ℚ × ℚ) :=
  match f.faces with
  | [] => []
  | lms :: _ => lms.map (fun p => (p.1 * (f.width : ℚ), p.2 * (f.height : ℚ)))

/-- The record stored for one frame (source lines 148-161): `timestamp`
is `frame_count / fps` (a `ZeroDivisionError`, i.e. `none`, when
`fps == 0`); a truthy (nonempty) landmark list is stored with its
length, an empty one with `num_landmarks = 0`. -/
def buildRecord (frame_count : Nat) (fps : ℚ) (landmarks : List (ℚ × ℚ)) :
    Option FrameRec :=
  match pydiv (frame_count : ℚ) fps with
  | none => none
  | some ts =>
      if landmarks.isEmpty then some ⟨frame_count, ts, [], 0⟩
      else some ⟨frame_count, ts, landmarks, landmarks.length⟩

/-- The exceptions `process_video` can raise. -/
inductive PyErr where
  /-- The `FileNotFoundError` raised at source line 116. -/
  | fileNotFound
  /-- The `ValueError` raised at source line 122 when the container cannot
  be opened. -/
  | videoOpen
  /-- The `ZeroDivisionError` raised by a `/` with zero divisor. -/
  | zeroDivision
deriving DecidableEq

/-- What the environment (filesystem plus `cv2.VideoCapture`) supplies
to one `process_video` call. -/
structure VideoEnv where
  /-- Whether `os.path.exists(video_path)` holds (source line 115). -/
  path_exists : Bool
  /-- Whether `cap.isOpened()` holds (source line 121). -/
  opens : Bool
  /-- The value `int(cap.get(cv2.CAP_PROP_FRAME_COUNT))` (source line 125); a
  container hint only. -/
  total_frames_hint : Int
  /-- The value `cap.get(cv2.CAP_PROP_FPS)` (source line 126). -/
  fps : ℚ
  /-- The frames `cap.read()` yields before returning `ret = False`. -/
  frames : List Frame
deriving DecidableEq

/-- The `while True` loop of `process_video` (source lines 135-166):
reads frames in order, extracts landmarks, stores one record per frame
under its key, and prints progress every 30 frames — the progress line
divides by the container's frame-count hint, so it raises
`ZeroDivisionError` when the hint is `0` and frame 30 is reached. -/
def runLoop (fps : ℚ) (hint : Int) :
    List Frame → Nat → List (String × FrameRec) →
    Except PyErr (Nat × List (String × FrameRec))
  | [], frame_count, acc => .ok (frame_count, acc)
  | f :: rest, frame_count, acc =>
      let landmarks := extract_landmarks_from_frame f
      match buildRecord (frame_count + 1) fps landmarks with
      | none => .error .zeroDivision
      | some r =>
          if (frame_count + 1) % 30 = 0 ∧ hint = 0 then .error .zeroDivision
          else runLoop fps hint rest (frame_count + 1)
            (acc ++ [(frame_key (frame_count + 1), r)])

/-- JSON documents as Python's `json` module reads and writes them
(`int` and `float` are distinct Python values, and `json` keeps the
distinction). -/
inductive Json where
  | jint (n : Int)
  | jfloat (q : ℚ)
  | jstr (s : String)
  | jarr (elems : List Json)
  | jobj (fields : List (String × Json))

/-- How `json.dump` encodes one landmark tuple. -/
def pointToJson (p : ℚ × ℚ) : Json :=
  .jarr [.jfloat p.1, .jfloat p.2]

/-- How `json.dump` encodes one frame record (the dictionary of source
lines 148-161). -/
def recordToJson (r : FrameRec) : Json :=
  .jobj [("frame_number", .jint (r.frame_number : Int)),
         ("timestamp", .jfloat r.timestamp),
         ("landmarks", .jarr (r.landmarks.map pointToJson)),
         ("num_landmarks", .jint (r.num_landmarks : Int))]

/-- How `json.dump` encodes the metadata dictionary (source lines
173-179). -/
def metadataToJson (m : Metadata) : Json :=
  .jobj [("video_path", .jstr m.video_path),
         ("total_frames", .jint (m.total_frames : Int)),
         ("fps", .jfloat m.fps),
         ("duration_seconds", .jfloat m.duration_seconds),
         ("frames_with_face", .jint (m.frames_with_face : Int))]

/-- The JSON document `save_to_json` writes (source lines 192-205):
`json.dump` of the `result` dictionary. -/
def resultToJson (t : TrackingResult) : Json :=
  .jobj [("metadata", metadataToJson t.metadata),
         ("frames", .jobj (t.frames.map fun kv => (kv.1, recordToJson kv.2)))]

/-- Embeds `save_to_json` (source lines 192-205) as the pair of output path
and written document. -/
def save_to_json (t : TrackingResult) (output_path : String) : String × Json :=
  (output_path, resultToJson t)

/-- Embeds `process_video` (source lines 103-190).  Returns the raised
exception, or the result together with the file written when an output
path was given. -/
def process_video (env : VideoEnv) (video_path : String)
    (output_json : Option String) :
    Except PyErr (TrackingResult × Option (String × Json)) :=
  if env.path_exists = false then .error .fileNotFound
  else if env.opens = false then .error .videoOpen
  else
    match runLoop env.fps env.total_frames_hint env.frames 0 [] with
    | .error e => .error e
    | .ok (frame_count, landmarks_data) =>
        match pydiv (frame_count : ℚ) env.fps with
        | none => .error .zeroDivision
        | some dur =>
            let metadata : Metadata :=
              { video_path := video_path
                total_frames := frame_count
                fps := env.fps
                duration_seconds := dur
                frames_with_face :=
                  (landmarks_data.filter
                    fun kv => decide (0 < kv.2.num_landmarks)).length }
            let result : TrackingResult := ⟨metadata, landmarks_data⟩
            .ok (result, output_json.map fun p => save_to_json result p)

/-- Embeds `load_from_json` (source lines 207-222): `json.load` either
succeeds and the parsed document is returned unchanged, or raises (the
file is missing, unreadable, or malformed), in which case the handler
prints the error and returns the empty dict `{}`.  The argument models
the outcome of `json.load`, `none` being any raised exception. -/
def load_from_json (loaded : Option Json) : Json :=
  match loaded with
  | some j => j
  | none => Json.jobj []

/-- Embeds `get_frame_landmarks` (source lines 224-237): look the key
`f"frame_{frame_number:06d}"` up in `self.landmarks_data`; return the
stored landmark list, or `[]` when the key is absent. -/
def get_frame_landmarks (landmarks_data : List (String × FrameRec))
    (frame_number : Int) : List (ℚ × ℚ) :=
  match landmarks_data.find? (fun kv => kv.1 == frame_key_int frame_number) with
  | some kv => kv.2.landmarks
  | none => []

/-- The populated statistics dictionary of `get_statistics`. -/
structure Stats where
  total_frames : Nat
  frames_with_face : Nat
  detection_rate : ℚ
  average_landmarks_per_frame : ℚ
deriving DecidableEq

/-- Embeds `get_statistics` (source lines 239-257): an empty `landmarks_data`
returns the empty dict `{}` (modelled as `none`); otherwise the four
statistics fields, each ratio guarded by `if total_frames > 0 else 0`. -/
def get_statistics (landmarks_data : List (String × FrameRec)) :
    Option Stats :=
  if landmarks_data.isEmpty then none
  else
    let frames_with_face :=
      (landmarks_data.filter fun kv => decide (0 < kv.2.num_landmarks)).length
    let total_frames := landmarks_data.length
    some { total_frames := total_frames
           frames_with_face := frames_with_face
           detection_rate :=
             if 0 < total_frames then (frames_with_face : ℚ) / total_frames
             else 0
           average_landmarks_per_frame :=
             if 0 < total_frames then
               ((landmarks_data.map fun kv => kv.2.num_landmarks).sum : ℚ) /
                 total_frames
             else 0 }

/-! Reading the persisted format back.

`load_from_json` returns the parsed JSON document verbatim; the
decoders below interpret that document as a `TrackingResult`, following
the persisted format of spec §6 (top-level `metadata` and `frames`
keys, each frame record a mapping of its four attributes, `landmarks` a
sequence of two-element coordinate pairs). -/

/-- Python dictionary lookup `d[k]` on a parsed JSON object. -/
def jLookup (fields : List (String × Json)) (k : String) : Option Json :=
  (fields.find? fun kv => kv.1 == k).map (fun kv => kv.2)

/-- A two-element coordinate pair `[x, y]`. -/
def jsonToPoint : Json → Option (ℚ × ℚ)
  | .jarr [.jfloat x, .jfloat y] => some (x, y)
  | _ => none

/-- A sequence of coordinate pairs. -/
def jsonToPoints : List Json → Option (List (ℚ × ℚ))
  | [] => some []
  | j :: rest => do
      let p ← jsonToPoint j
      let ps ← jsonToPoints rest
      pure (p :: ps)

/-- A nonnegative JSON integer. -/
def jsonToNat : Json → Option Nat
  | .jint (.ofNat n) => some n
  | _ => none

/-- A JSON number used as a float field. -/
def jsonToFloat : Json → Option ℚ
  | .jfloat q => some q
  | _ => none

/-- A JSON string field. -/
def jsonToStr : Json → Option String
  | .jstr s => some s
  | _ => none

/-- One frame record, from its four-attribute mapping. -/
def jsonToRecord : Json → Option FrameRec
  | .jobj fields => do
      let fn ← jLookup fields "frame_number" >>= jsonToNat
      let ts ← jLookup fields "timestamp" >>= jsonToFloat
      let lmsJson ← jLookup fields "landmarks"
      let lms ← match lmsJson with
                | .jarr elems => jsonToPoints elems
                | _ => none
      let nl ← jLookup fields "num_landmarks" >>= jsonToNat
      pure ⟨fn, ts, lms, nl⟩
  | _ => none

/-- The metadata mapping, from its five attributes. -/
def jsonToMetadata : Json → Option Metadata
  | .jobj fields => do
      let vp ← jLookup fields "video_path" >>= jsonToStr
      let tf ← jLookup fields "total_frames" >>= jsonToNat
      let fps ← jLookup fields "fps" >>= jsonToFloat
      let dur ← jLookup fields "duration_seconds" >>= jsonToFloat
      let fwf ← jLookup fields "frames_with_face" >>= jsonToNat
      pure ⟨vp, tf, fps, dur, fwf⟩
  | _ => none

/-- The `frames` mapping: every value decodes as a frame record, keys
kept in order. -/
def jsonToFramesList : List (String × Json) → Option (List (String × FrameRec))
  | [] => some []
  | kv :: rest => do
      let r ← jsonToRecord kv.2
      let rest' ← jsonToFramesList rest
      pure ((kv.1, r) :: rest')

/-- The whole persisted document. -/
def jsonToResult : Json → Option TrackingResult
  | .jobj fields => do
      let md ← jLookup fields "metadata" >>= jsonToMetadata
      let frj ← jLookup fields "frames"
      let fr ← match frj with
               | .jobj fs => jsonToFramesList fs
               | _ => none
      pure ⟨md, fr⟩
  | _ => none

/-! Frame-key lemmas. -/

/-- The fold step that reads a digit string back as a number. -/
def decodeStep (acc : Nat) (c : Char) : Nat :=
  acc * 10 + (c.toNat - 48)

/-- Read a list of digit characters back as the number they denote. -/
def decodeDigits (l : List Char) : Nat :=
  l.foldl decodeStep 0

theorem digitChar_toNat (d : Nat) (hd : d < 10) :
    (Nat.digitChar d).toNat - 48 = d := by
  interval_cases d <;> rfl

theorem digitChar_mem_digits (d : Nat) (hd : d < 10) :
    Nat.digitChar d ∈ ['0', '1', '2', '3', '4', '5', '6', '7', '8', '9'] := by
  interval_cases d <;> decide

theorem repr10_foldl (n : Nat) :
    ∀ a : Nat, (repr10 n).foldl decodeStep a =
      a * 10 ^ (repr10 n).length + n := by
  induction n using Nat.strong_induction_on with
  | _ n ih =>
    intro a
    rw [repr10]
    split
    · rename_i h
      simp only [List.foldl, List.length_cons, List.length_nil, decodeStep]
      rw [digitChar_toNat n h]
      simp [pow_one]
    · rename_i h
      rw [List.foldl_append, ih (n / 10) (Nat.div_lt_self (by omega) (by omega))]
      simp only [List.foldl, List.length_append, List.length_cons,
        List.length_nil, decodeStep]
      rw [digitChar_toNat (n % 10) (Nat.mod_lt _ (by omega))]
      rw [pow_succ]
      have hKP : a * (10 ^ (repr10 (n / 10)).length * 10) =
          a * 10 ^ (repr10 (n / 10)).length * 10 := by ring
      rw [hKP]
      generalize a * 10 ^ (repr10 (n / 10)).length = K
      omega

theorem foldl_replicate_zero (k : Nat) :
    (List.replicate k '0').foldl decodeStep 0 = 0 := by
  induction k with
  | zero => rfl
  | succ k ih =>
    rw [List.replicate_succ, List.foldl_cons]
    exact ih

/-- Reading the padded key digits back recovers the frame counter:
zero padding is lossless. -/
theorem decode_padZero_repr10 (w n : Nat) :
    decodeDigits (padZero w (repr10 n)) = n := by
  unfold decodeDigits padZero
  rw [List.foldl_append, foldl_replicate_zero, repr10_foldl n 0]
  simp

theorem frameChars_inj {a b : Nat} (h : frameChars a = frameChars b) :
    a = b := by
  unfold frameChars at h
  rw [List.append_right_inj] at h
  have := congrArg decodeDigits h
  rwa [decode_padZero_repr10, decode_padZero_repr10] at this

theorem frame_key_inj {a b : Nat} (h : frame_key a = frame_key b) :
    a = b := by
  have hc : frameChars a = frameChars b := congrArg String.data h
  exact frameChars_inj hc

/-- Every character the decimal representation produces is a digit. -/
theorem repr10_mem_digits (n : Nat) :
    ∀ c ∈ repr10 n, c ∈ ['0', '1', '2', '3', '4', '5', '6', '7', '8', '9'] := by
  induction n using Nat.strong_induction_on with
  | _ n ih =>
    intro c hc
    rw [repr10] at hc
    split at hc
    · rename_i h
      rcases List.mem_singleton.mp hc with rfl
      exact digitChar_mem_digits n h
    · rename_i h
      rcases List.mem_append.mp hc with hc | hc
      · exact ih (n / 10) (Nat.div_lt_self (by omega) (by omega)) c hc
      · rcases List.mem_singleton.mp hc with rfl
        exact digitChar_mem_digits (n % 10) (Nat.mod_lt _ (by omega))

theorem padZero_ne_dash (w n : Nat) :
    ∀ c ∈ padZero w (repr10 n), c ≠ '-' := by
  intro c hc
  rcases List.mem_append.mp hc with hc | hc
  · rcases List.eq_of_mem_replicate hc with rfl
    decide
  · have := repr10_mem_digits n c hc
    intro hdash
    rw [hdash] at this
    simp at this

/-- A key built from a nonnegative counter never equals a key built
from a negative frame number: the latter carries a sign character. -/
theorem frame_key_ne_neg (m : Nat) (n : Int) (hn : n < 0) :
    frame_key m ≠ frame_key_int n := by
  intro h
  have hc : frameChars m = frameCharsInt n := congrArg String.data h
  unfold frameChars frameCharsInt at hc
  rw [if_pos hn, List.append_right_inj] at hc
  have hdash : '-' ∈ padZero 6 (repr10 m) := by
    rw [hc]
    exact List.mem_cons_self _ _
  exact padZero_ne_dash 6 m '-' hdash (by rfl)

/-! Loop characterization. -/

theorem buildRecord_eq_some {n : Nat} {fps : ℚ} {lms : List (ℚ × ℚ)}
    {r : FrameRec} (h : buildRecord n fps lms = some r) :
    r.frame_number = n := by
  unfold buildRecord at h
  split at h
  · exact absurd h (by simp)
  · split at h
    · injection h with h2
      rw [← h2]
    · injection h with h2
      rw [← h2]

/-- A successful pass of the loop appends, after the accumulator, one
record per remaining frame, keyed `frame_key (count+1), …` in order,
with frame numbers `count+1, …`, and returns the final counter. -/
theorem runLoop_ok (fps : ℚ) (hint : Int) :
    ∀ (l : List Frame) (count : Nat) (acc data : List (String × FrameRec))
      (count' : Nat),
      runLoop fps hint l count acc = .ok (count', data) →
      count' = count + l.length ∧
      ∃ recs : List (String × FrameRec),
        data = acc ++ recs ∧
        recs.map (fun kv => kv.1) =
          (List.range' (count + 1) l.length).map frame_key ∧
        recs.map (fun kv => kv.2.frame_number) =
          List.range' (count + 1) l.length := by
  intro l
  induction l with
  | nil =>
    intro count acc data count' h
    simp only [runLoop] at h
    cases h
    exact ⟨by simp, [], by simp, by simp, by simp⟩
  | cons f rest ih =>
    intro count acc data count' h
    simp only [runLoop] at h
    split at h
    · exact absurd h (by simp)
    · rename_i r hbr
      split at h
      · exact absurd h (by simp)
      · obtain ⟨hcount, recs, hdata, hkeys, hnums⟩ :=
          ih (count + 1) (acc ++ [(frame_key (count + 1), r)]) data count' h
        refine ⟨by simp [hcount]; omega, (frame_key (count + 1), r) :: recs,
          ?_, ?_, ?_⟩
        · rw [hdata, List.append_assoc]
          rfl
        · simp only [List.length_cons, List.range'_succ, List.map_cons,
            hkeys]
        · simp only [List.length_cons, List.range'_succ, List.map_cons,
            hnums, buildRecord_eq_some hbr]

/-- A successful `process_video` run: the result's frame dictionary is
exactly the loop's output, its keys are `frame_key 1, …, frame_key N`
in order and its frame numbers are `1, …, N`, where
`N = metadata.total_frames` is the number of decoded frames. -/
theorem process_video_ok {env : VideoEnv} {vp : String} {oj : Option String}
    {t : TrackingResult} {w : Option (String × Json)}
    (h : process_video env vp oj = .ok (t, w)) :
    t.metadata.total_frames = env.frames.length ∧
    t.frames.map (fun kv => kv.1) =
      (List.range' 1 t.metadata.total_frames).map frame_key ∧
    t.frames.map (fun kv => kv.2.frame_number) =
      List.range' 1 t.metadata.total_frames := by
  unfold process_video at h
  split at h
  · exact absurd h (by simp)
  · split at h
    · exact absurd h (by simp)
    · split at h
      · exact absurd h (by simp)
      · rename_i frame_count landmarks_data hrl
        split at h
        · exact absurd h (by simp)
        · obtain ⟨hcount, recs, hdata, hkeys, hnums⟩ :=
            runLoop_ok env.fps env.total_frames_hint env.frames 0 []
              landmarks_data frame_count hrl
          cases h
          simp only [List.nil_append] at hdata
          subst hdata
          refine ⟨by simpa using hcount, ?_, ?_⟩
          · simpa [hcount] using hkeys
          · simpa [hcount] using hnums

/-! Serialization round trip. -/

theorem jsonToPoints_roundtrip (l : List (ℚ × ℚ)) :
    jsonToPoints (l.map pointToJson) = some l := by
  induction l with
  | nil => rfl
  | cons p rest ih =>
    calc jsonToPoints ((p :: rest).map pointToJson)
        = (jsonToPoints (rest.map pointToJson)).bind
            (fun ps => some (p :: ps)) := rfl
      _ = some (p :: rest) := by rw [ih]; rfl

theorem jsonToRecord_roundtrip (r : FrameRec) :
    jsonToRecord (recordToJson r) = some r := by
  calc jsonToRecord (recordToJson r)
      = (jsonToPoints (r.landmarks.map pointToJson)).bind
          (fun lms =>
            some ⟨r.frame_number, r.timestamp, lms, r.num_landmarks⟩) := rfl
    _ = some r := by rw [jsonToPoints_roundtrip]; rfl

theorem jsonToMetadata_roundtrip (m : Metadata) :
    jsonToMetadata (metadataToJson m) = some m := rfl

theorem jsonToFramesList_roundtrip (l : List (String × FrameRec)) :
    jsonToFramesList (l.map fun kv => (kv.1, recordToJson kv.2)) = some l := by
  induction l with
  | nil => rfl
  | cons kv rest ih =>
    calc jsonToFramesList ((kv :: rest).map fun x => (x.1, recordToJson x.2))
        = (jsonToRecord (recordToJson kv.2)).bind fun r =>
            (jsonToFramesList (rest.map fun x => (x.1, recordToJson x.2))).bind
              fun rest' => some ((kv.1, r) :: rest') := rfl
      _ = some (kv :: rest) := by rw [jsonToRecord_roundtrip, ih]; rfl

/-! Claim theorems. -/

/-- C1 (the code at the failing input): when the container reports
`fps == 0`, the division `frame_count / fps` — the first record's
timestamp when at least one frame decodes, `duration_seconds` when
none does — raises `ZeroDivisionError`; the run aborts with no output
file written, instead of completing with duration reported as 0. -/
theorem process_video_fps_zero_raises :
    process_video ⟨true, true, 10, 0, [⟨640, 480, []⟩]⟩ "video.mp4"
      (some "out.json") = .error .zeroDivision ∧
    process_video ⟨true, true, 10, 0, []⟩ "video.mp4" (some "out.json") =
      .error .zeroDivision :=
  ⟨rfl, rfl⟩

/-- C2 counterexample: for a run with zero processed frames
`get_statistics` returns the empty dict, not a populated statistics
dict with `total_frames = 0`, `frames_with_face = 0`,
`detection_rate = 0` and `average_landmarks_per_frame = 0`. -/
theorem get_statistics_empty_counterexample :
    get_statistics [] = none ∧ get_statistics [] ≠ some ⟨0, 0, 0, 0⟩ :=
  ⟨rfl, by decide⟩

/-- C2 amended: the statistics computation raises no exception (it is
total) and returns the empty dict — with no statistics fields at all —
exactly when there are zero processed frames. -/
theorem get_statistics_empty_amended
    (landmarks_data : List (String × FrameRec)) :
    get_statistics landmarks_data = none ↔ landmarks_data = [] := by
  cases landmarks_data with
  | nil => simp [get_statistics]
  | cons kv rest => simp [get_statistics]

/-- C3 counterexample: when the load fails (missing, unreadable, or
malformed file — any exception from `json.load`), `load_from_json`
returns the empty dict `{}` to the caller: exactly the silently
returned empty structure the claim rules out, rather than an error
result. -/
theorem load_from_json_failure_counterexample :
    load_from_json none = Json.jobj [] := rfl

/-- C3 amended: on a missing, unreadable, or malformed file the load
operation catches the exception, prints a message, and returns the
empty dict to the caller — indistinguishable from a successfully
loaded empty document; no error value reaches the caller. -/
theorem load_from_json_failure_amended :
    load_from_json none = Json.jobj [] ∧
    load_from_json (some (Json.jobj [])) = Json.jobj [] :=
  ⟨rfl, rfl⟩

/-- C4: for every completed run, the frame dictionary has exactly
`metadata.total_frames` entries, and the stored `frame_number` values
are exactly `1, …, total_frames` in order — no gaps, no duplicates —
regardless of which frames had a face detected. -/
theorem process_video_frames_complete (env : VideoEnv) (vp : String)
    (oj : Option String) (t : TrackingResult) (w : Option (String × Json))
    (h : process_video env vp oj = .ok (t, w)) :
    t.frames.length = t.metadata.total_frames ∧
    t.frames.map (fun kv => kv.2.frame_number) =
      List.range' 1 t.metadata.total_frames := by
  obtain ⟨hcount, hkeys, hnums⟩ := process_video_ok h
  refine ⟨?_, hnums⟩
  have hlen := congrArg List.length hnums
  simpa using hlen

/-- C4 witness: a concrete two-frame run (face only in frame 2). -/
theorem process_video_frames_complete_witness :
    (⟨⟨"v.mp4", 2, 1, 2, 1⟩,
      [(frame_key 1, ⟨1, 1, [], 0⟩),
       (frame_key 2, ⟨2, 2, [((1 : ℚ), (1 : ℚ))], 1⟩)]⟩ :
        TrackingResult).frames.length =
      (⟨⟨"v.mp4", 2, 1, 2, 1⟩,
        [(frame_key 1, ⟨1, 1, [], 0⟩),
         (frame_key 2, ⟨2, 2, [((1 : ℚ), (1 : ℚ))], 1⟩)]⟩ :
          TrackingResult).metadata.total_frames ∧
    (⟨⟨"v.mp4", 2, 1, 2, 1⟩,
      [(frame_key 1, ⟨1, 1, [], 0⟩),
       (frame_key 2, ⟨2, 2, [((1 : ℚ), (1 : ℚ))], 1⟩)]⟩ :
        TrackingResult).frames.map (fun kv => kv.2.frame_number) =
      List.range' 1 (⟨⟨"v.mp4", 2, 1, 2, 1⟩,
        [(frame_key 1, ⟨1, 1, [], 0⟩),
         (frame_key 2, ⟨2, 2, [((1 : ℚ), (1 : ℚ))], 1⟩)]⟩ :
          TrackingResult).metadata.total_frames :=
  process_video_frames_complete
    ⟨true, true, 5, 1, [⟨2, 2, []⟩, ⟨2, 2, [[((1 : ℚ)/2, (1 : ℚ)/2)]]⟩]⟩
    "v.mp4" none
    ⟨⟨"v.mp4", 2, 1, 2, 1⟩,
      [(frame_key 1, ⟨1, 1, [], 0⟩),
       (frame_key 2, ⟨2, 2, [((1 : ℚ), (1 : ℚ))], 1⟩)]⟩
    none
    (by norm_num [process_video, runLoop, buildRecord, pydiv,
      extract_landmarks_from_frame])

/-- C5: every record the builder produces (face detected or not)
stores `num_landmarks` equal to the length of its landmark list, and
it is zero exactly when the list is empty. -/
theorem buildRecord_num_landmarks (n : Nat) (fps : ℚ)
    (lms : List (ℚ × ℚ)) (r : FrameRec)
    (h : buildRecord n fps lms = some r) :
    r.num_landmarks = r.landmarks.length ∧
    (r.num_landmarks = 0 ↔ r.landmarks = []) := by
  unfold buildRecord at h
  split at h
  · exact absurd h (by simp)
  · split at h
    · injection h with h2
      rw [← h2]
      simp
    · injection h with h2
      rw [← h2]
      simp

/-- C5 witness: a concrete record with one landmark. -/
theorem buildRecord_num_landmarks_witness :
    ((⟨1, 1, [((2 : ℚ), (3 : ℚ))], 1⟩ : FrameRec).num_landmarks =
      (⟨1, 1, [((2 : ℚ), (3 : ℚ))], 1⟩ : FrameRec).landmarks.length) ∧
    ((⟨1, 1, [((2 : ℚ), (3 : ℚ))], 1⟩ : FrameRec).num_landmarks = 0 ↔
      (⟨1, 1, [((2 : ℚ), (3 : ℚ))], 1⟩ : FrameRec).landmarks = []) :=
  buildRecord_num_landmarks 1 1 [(2, 3)] ⟨1, 1, [(2, 3)], 1⟩
    (by norm_num [buildRecord, pydiv])

/-- C6: serializing a `TrackingResult` (the document `save_to_json`
writes) and deserializing the loaded document yields a structurally
equal result: same metadata field values, same frame keys, and the
same landmark coordinate pairs in the same order. -/
theorem save_load_roundtrip (t : TrackingResult) (p : String) :
    jsonToResult (load_from_json (some (save_to_json t p).2)) = some t := by
  show jsonToResult (resultToJson t) = some t
  calc jsonToResult (resultToJson t)
      = (jsonToFramesList (t.frames.map fun kv => (kv.1, recordToJson kv.2))).bind
          (fun fr => some ⟨t.metadata, fr⟩) := rfl
    _ = some t := by rw [jsonToFramesList_roundtrip]; rfl

/-- C7: extraction maps the first detected face's normalized landmarks
pointwise to `(x_norm * width, y_norm * height)`, preserving order and
out-of-range values verbatim (no clamping appears: the output at index
`i` is exactly the scaled input at index `i`); an empty detection
yields the empty sequence. -/
theorem extract_landmarks_pointwise (f : Frame) :
    (f.faces = [] → extract_landmarks_from_frame f = []) ∧
    (∀ lms rest, f.faces = lms :: rest → ∀ i : Nat,
      (extract_landmarks_from_frame f)[i]? =
        (lms[i]?).map fun p =>
          (p.1 * (f.width : ℚ), p.2 * (f.height : ℚ))) := by
  constructor
  · intro h
    unfold extract_landmarks_from_frame
    rw [h]
  · intro lms rest h i
    unfold extract_landmarks_from_frame
    rw [h]
    exact List.getElem?_map _ _ _

/-- C7 witness: a 100x50 frame with one normalized landmark at
`(1/2, 1/2)` extracts to pixel `(50, 25)`. -/
theorem extract_landmarks_pointwise_witness :
    ((⟨100, 50, [[((1 : ℚ)/2, (1 : ℚ)/2)]]⟩ : Frame).faces =
      [((1 : ℚ)/2, (1 : ℚ)/2)] :: []) ∧
    (extract_landmarks_from_frame
        ⟨100, 50, [[((1 : ℚ)/2, (1 : ℚ)/2)]]⟩)[0]? =
      some ((50 : ℚ), (25 : ℚ)) :=
  ⟨rfl, by
    rw [(extract_landmarks_pointwise
        ⟨100, 50, [[((1 : ℚ)/2, (1 : ℚ)/2)]]⟩).2
      [((1 : ℚ)/2, (1 : ℚ)/2)] [] rfl 0]
    norm_num⟩

/-- C8: frame-key generation is a deterministic function of the frame
counter and is injective over all counters, including counters beyond
the six-digit zero-padding width: distinct counters always produce
distinct keys. -/
theorem frame_key_collision_free (a b : Nat) (hab : a ≠ b) :
    frame_key a ≠ frame_key b :=
  fun h => hab (frame_key_inj h)

/-- C8 witness: the spec's example pair 42 / 420, and a pair with one
counter beyond the padding width. -/
theorem frame_key_collision_free_witness :
    ((42 : Nat) ≠ 420 ∧ frame_key 42 ≠ frame_key 420) ∧
    ((1000000 : Nat) ≠ 999999 ∧ frame_key 1000000 ≠ frame_key 999999) :=
  ⟨⟨by decide, frame_key_collision_free 42 420 (by decide)⟩,
   ⟨by decide, frame_key_collision_free 1000000 999999 (by decide)⟩⟩

/-- C9: a nonexistent input path aborts the run with the
`FileNotFoundError` raised before any frame is read — the outcome is
the same whatever frames the container would have yielded — and no
output file is written (the error return carries none); when the path
exists but the container cannot be opened, the run aborts with the
`ValueError`. -/
theorem process_video_aborts_early (env : VideoEnv) (vp : String)
    (oj : Option String) :
    (env.path_exists = false → ∀ fr : List Frame,
      process_video { env with frames := fr } vp oj =
        .error .fileNotFound) ∧
    (env.path_exists = true → env.opens = false →
      process_video env vp oj = .error .videoOpen) := by
  constructor
  · intro hp fr
    unfold process_video
    simp [hp]
  · intro hp ho
    unfold process_video
    simp [hp, ho]

/-- C9 witness: concrete missing-path and unopenable-container runs. -/
theorem process_video_aborts_early_witness :
    (⟨false, true, 5, 30, []⟩ : VideoEnv).path_exists = false ∧
    process_video ⟨false, true, 5, 30, []⟩ "missing.mp4" (some "out.json") =
      .error .fileNotFound ∧
    process_video ⟨true, false, 5, 30, []⟩ "bad.mp4" (some "out.json") =
      .error .videoOpen :=
  ⟨rfl,
   (process_video_aborts_early ⟨false, true, 5, 30, []⟩ "missing.mp4"
      (some "out.json")).1 rfl [],
   (process_video_aborts_early ⟨true, false, 5, 30, []⟩ "bad.mp4"
      (some "out.json")).2 rfl rfl⟩

/-- C10: for every completed run and every frame number with no stored
record — nonpositive numbers included, and numbers beyond the number
of processed frames — the lookup returns the empty landmark list
rather than raising; a query against the empty pre-run dictionary also
returns `[]`. -/
theorem get_frame_landmarks_missing (env : VideoEnv) (vp : String)
    (oj : Option String) (t : TrackingResult) (w : Option (String × Json))
    (h : process_video env vp oj = .ok (t, w)) (n : Int)
    (hn : n ≤ 0 ∨ (t.metadata.total_frames : Int) < n) :
    get_frame_landmarks t.frames n = [] ∧
    get_frame_landmarks [] n = [] := by
  refine ⟨?_, rfl⟩
  obtain ⟨hcount, hkeys, hnums⟩ := process_video_ok h
  unfold get_frame_landmarks
  have hfind : t.frames.find? (fun kv => kv.1 == frame_key_int n) = none := by
    rw [List.find?_eq_none]
    intro kv hkv hbeq
    have hkey : kv.1 = frame_key_int n := by simpa using hbeq
    have hmem : kv.1 ∈ t.frames.map (fun kv => kv.1) :=
      List.mem_map_of_mem _ hkv
    rw [hkeys] at hmem
    obtain ⟨m, hm, hmk⟩ := List.mem_map.mp hmem
    rw [List.mem_range'_1] at hm
    rcases lt_or_le n 0 with hneg | hnonneg
    · exact frame_key_ne_neg m n hneg (hmk.trans hkey)
    · have hfk : frame_key_int n = frame_key n.toNat := by
        unfold frame_key_int frameCharsInt frame_key
        rw [if_neg (by omega)]
      rw [hkey, hfk] at hmk
      have hmn := frame_key_inj hmk
      omega
  rw [hfind]

/-- C10 witness: a one-frame run queried at frame numbers 0, -3 and 2,
and an empty dictionary queried at 0. -/
theorem get_frame_landmarks_missing_witness :
    (get_frame_landmarks [(frame_key 1, ⟨1, 1, [], 0⟩)] 0 = [] ∧
      get_frame_landmarks [] 0 = []) ∧
    (get_frame_landmarks [(frame_key 1, ⟨1, 1, [], 0⟩)] (-3) = [] ∧
      get_frame_landmarks [] (-3) = []) ∧
    (get_frame_landmarks [(frame_key 1, ⟨1, 1, [], 0⟩)] 2 = [] ∧
      get_frame_landmarks [] 2 = []) :=
  ⟨get_frame_landmarks_missing ⟨true, true, 5, 1, [⟨2, 2, []⟩]⟩ "v.mp4" none
      ⟨⟨"v.mp4", 1, 1, 1, 0⟩, [(frame_key 1, ⟨1, 1, [], 0⟩)]⟩ none
      (by norm_num [process_video, runLoop, buildRecord, pydiv,
        extract_landmarks_from_frame]) 0
      (Or.inl (by decide)),
   get_frame_landmarks_missing ⟨true, true, 5, 1, [⟨2, 2, []⟩]⟩ "v.mp4" none
      ⟨⟨"v.mp4", 1, 1, 1, 0⟩, [(frame_key 1, ⟨1, 1, [], 0⟩)]⟩ none
      (by norm_num [process_video, runLoop, buildRecord, pydiv,
        extract_landmarks_from_frame]) (-3)
      (Or.inl (by decide)),
   get_frame_landmarks_missing ⟨true, true, 5, 1, [⟨2, 2, []⟩]⟩ "v.mp4" none
      ⟨⟨"v.mp4", 1, 1, 1, 0⟩, [(frame_key 1, ⟨1, 1, [], 0⟩)]⟩ none
      (by norm_num [process_video, runLoop, buildRecord, pydiv,
        extract_landmarks_from_frame]) 2
      (Or.inr (by decide))⟩

end LandmarksFace
